import Mathlib

/-!
Verification of the DriverMonitor drowsiness state machine from
src/camera.py (driver micro-sleep detection).

The Python code is shallowly embedded below.  Time instants and
geometric ratios are modelled as rationals (the Python code computes
with IEEE floats; all the logic under scrutiny is comparisons and
affine arithmetic, which the rational model represents exactly).  The
ambient clock time.time() is made an explicit argument of every
operation, matching the specification's injected-clock interface.
Python None is modelled with Option; the Python truthiness test
applied to the field eye_close_start (which is falsy both for None
and for the float 0.0) is modelled exactly by the function given
below.  A call of update_state while ear_threshold is None raises a
TypeError in Python; the embedded update_state returns none there.
The geometry functions of the class use Euclidean distance, hence are
embedded over the reals.
-/

namespace Camera

/-- Constants from the top of src/camera.py. -/
def MAR_THRESHOLD : ℚ := 6/10

def MICROSLEEP_TIME : ℚ := 2

def BLINK_WINDOW : ℚ := 60

def BLINK_RATE_THRESHOLD : ℕ := 20

def STATE_HOLD_TIME : ℚ := 1

def CALIBRATION_TIME : ℚ := 5

def FACE_LOST_TIME : ℚ := 2

def ALARM_COOLDOWN : ℚ := 1

/-- The four monitor states, stored as strings in the Python code. -/
inductive MState where
  | CALIBRATING
  | NORMAL
  | DROWSY
  | DANGER
deriving Repr, DecidableEq

/-- The mutable fields of the Python class DriverMonitor
(src/camera.py, lines 28-42).  The deque of blink timestamps is a
list (append on the right, popleft on the left); fields holding
Python None are Options. -/
structure DriverMonitor where
  blink_timestamps : List ℚ
  eyes_closed_prev : Bool
  eye_close_start : Option ℚ
  face_lost_start : Option ℚ
  state : MState
  state_change_time : ℚ
  ear_threshold : Option ℚ
  calibration_values : List ℚ
  calibration_start : ℚ
  last_alarm_time : ℚ
deriving Repr, DecidableEq

namespace DriverMonitor

/-- The constructor of DriverMonitor (src/camera.py lines 28-42): the
two time.time() reads at construction are the argument t0. -/
def init (t0 : ℚ) : DriverMonitor :=
  { blink_timestamps := []
    eyes_closed_prev := false
    eye_close_start := none
    face_lost_start := none
    state := .CALIBRATING
    state_change_time := t0
    ear_threshold := none
    calibration_values := []
    calibration_start := t0
    last_alarm_time := 0 }

/-- DriverMonitor.calibrate (src/camera.py lines 61-67): append the
sample; once the elapsed time since calibration_start reaches
CALIBRATION_TIME, set ear_threshold to 0.7 times the mean of all
collected samples, move to NORMAL and reset the hold timer. -/
def calibrate (m : DriverMonitor) (now ear : ℚ) : DriverMonitor :=
  let m1 := { m with calibration_values := m.calibration_values ++ [ear] }
  if now - m1.calibration_start ≥ CALIBRATION_TIME then
    let avg := m1.calibration_values.sum / (m1.calibration_values.length : ℚ)
    { m1 with ear_threshold := some (7/10 * avg)
              state := .NORMAL
              state_change_time := now }
  else m1

/-- DriverMonitor.trigger_alarm (src/camera.py lines 70-77).  The
returned Bool records whether the alarm side effect (the detached
beep thread) was actually launched; a request inside the cooldown
returns the monitor unchanged. -/
def trigger_alarm (m : DriverMonitor) (now : ℚ) : DriverMonitor × Bool :=
  if now - m.last_alarm_time > ALARM_COOLDOWN then
    ({ m with last_alarm_time := now }, true)
  else (m, false)

/-- DriverMonitor.handle_face_lost (src/camera.py lines 80-86).  The
first Bool records whether the alarm gate was requested (trigger_alarm
called), the second whether it actually fired. -/
def handle_face_lost (m : DriverMonitor) (now : ℚ) : DriverMonitor × Bool × Bool :=
  match m.face_lost_start with
  | none => ({ m with face_lost_start := some now }, false, false)
  | some t0 =>
      if now - t0 ≥ FACE_LOST_TIME then
        let r := trigger_alarm { m with state := .DANGER } now
        (r.1, true, r.2)
      else (m, false, false)

/-- Lines 92-100 of src/camera.py, the blink and eye-closure block at
the top of update_state, given the unwrapped threshold. -/
def blinkPhase (m : DriverMonitor) (now ear θ : ℚ) : DriverMonitor :=
  if ear < θ then
    if m.eyes_closed_prev then m
    else
      { m with blink_timestamps := m.blink_timestamps ++ [now]
               eyes_closed_prev := true
               eye_close_start := some now }
  else
    { m with eyes_closed_prev := false, eye_close_start := none }

/-- Lines 103-104 of src/camera.py: the while loop popping stale
timestamps from the left of the deque. -/
def pruneBlinks (now : ℚ) (ts : List ℚ) : List ℚ :=
  ts.dropWhile (fun t => decide (now - t > BLINK_WINDOW))

/-- The guard of line 109 of src/camera.py, including the Python
truthiness of the float eye_close_start: None and the instant 0.0 are
both falsy, so the duration test is reached only for a nonzero start
instant. -/
def microsleepCond (start : Option ℚ) (now : ℚ) : Bool :=
  match start with
  | none => false
  | some t => decide (t ≠ 0) && decide (now - t ≥ MICROSLEEP_TIME)

/-- Result of one update_state call: the new monitor, the returned
blink rate, whether the microsleep early return of line 112 was taken,
whether trigger_alarm was called, and whether the alarm fired. -/
structure UpdateOut where
  m : DriverMonitor
  blink_rate : ℕ
  microsleep : Bool
  requested : Bool
  fired : Bool
deriving Repr, DecidableEq

/-- DriverMonitor.update_state (src/camera.py lines 89-124).  When
ear_threshold is still None the Python comparison ear < None raises a
TypeError; that is the none result here.  Otherwise: blink edge
detection, window pruning, the immediate microsleep override with
early return, then the hysteresis-gated transition. -/
def update_state (m : DriverMonitor) (now ear mar : ℚ) : Option UpdateOut :=
  match m.ear_threshold with
  | none => none
  | some θ =>
      let m1 := blinkPhase m now ear θ
      let m2 := { m1 with blink_timestamps := pruneBlinks now m1.blink_timestamps }
      let blink_rate := m2.blink_timestamps.length
      if microsleepCond m2.eye_close_start now then
        let r := trigger_alarm { m2 with state := .DANGER } now
        some ⟨r.1, blink_rate, true, true, r.2⟩
      else
        let new_state : MState :=
          if blink_rate > BLINK_RATE_THRESHOLD ∨ mar > MAR_THRESHOLD then .DROWSY
          else .NORMAL
        let m3 :=
          if new_state ≠ m2.state then
            if now - m2.state_change_time > STATE_HOLD_TIME then
              { m2 with state := new_state, state_change_time := now }
            else m2
          else { m2 with state_change_time := now }
        some ⟨m3, blink_rate, false, false, false⟩

end DriverMonitor

/-- One frame of input to the main loop of src/camera.py (lines
135-179): either no face landmarks were detected, or a face was with
the reduced eye and mouth ratios. -/
inductive Frame where
  | lost (now : ℚ)
  | face (now ear mar : ℚ)
deriving Repr, DecidableEq

/-- One iteration of the main loop of src/camera.py (lines 145-167):
on a lost frame call handle_face_lost; on a face frame clear
face_lost_start, then calibrate while CALIBRATING, otherwise
update_state.  The none result is the TypeError of update_state. -/
def loopStep (m : DriverMonitor) (f : Frame) : Option DriverMonitor :=
  match f with
  | .lost now => some (m.handle_face_lost now).1
  | .face now ear mar =>
      let m1 := { m with face_lost_start := none }
      if m1.state = .CALIBRATING then some (m1.calibrate now ear)
      else
        match m1.update_state now ear mar with
        | none => none
        | some out => some out.m

/-- The main loop iterated over a list of frames. -/
def runFrames (m : DriverMonitor) : List Frame → Option DriverMonitor
  | [] => some m
  | f :: fs =>
      match loopStep m f with
      | none => none
      | some m1 => runFrames m1 fs

/-- A sequence of trigger_alarm requests at the given instants,
returning the final monitor and the list of instants at which the
alarm actually fired. -/
def runAlarms (m : DriverMonitor) : List ℚ → DriverMonitor × List ℚ
  | [] => (m, [])
  | t :: ts =>
      let r := m.trigger_alarm t
      let rest := runAlarms r.1 ts
      (rest.1, (if r.2 then [t] else []) ++ rest.2)

/-- A sequence of calibration frames, each a pair of an instant and an
eye-ratio sample, fed through calibrate. -/
def foldCalib (m : DriverMonitor) : List (ℚ × ℚ) → DriverMonitor
  | [] => m
  | p :: ps => foldCalib (m.calibrate p.1 p.2) ps

/-- A sequence of frames, each a pair of an instant and an eye ratio,
fed through the blink and closure block with a fixed threshold. -/
def foldBlink (m : DriverMonitor) (θ : ℚ) : List (ℚ × ℚ) → DriverMonitor
  | [] => m
  | p :: ps => foldBlink (DriverMonitor.blinkPhase m p.1 p.2 θ) θ ps

/-- DriverMonitor.euclidean_dist (src/camera.py lines 45-46):
math.dist on 2D points. -/
noncomputable def euclidean_dist (p q : ℝ × ℝ) : ℝ :=
  Real.sqrt ((p.1 - q.1) ^ 2 + (p.2 - q.2) ^ 2)

/-- DriverMonitor.eye_aspect_ratio (src/camera.py lines 48-52). -/
noncomputable def eye_aspect_ratio (eye : Fin 6 → ℝ × ℝ) : ℝ :=
  let A := euclidean_dist (eye 1) (eye 5)
  let B := euclidean_dist (eye 2) (eye 4)
  let C := euclidean_dist (eye 0) (eye 3)
  if C = 0 then 0 else (A + B) / (2 * C)

/-- DriverMonitor.mouth_aspect_ratio (src/camera.py lines 54-58),
textually the same computation as the eye ratio. -/
noncomputable def mouth_aspect_ratio (mouth : Fin 6 → ℝ × ℝ) : ℝ :=
  let A := euclidean_dist (mouth 1) (mouth 5)
  let B := euclidean_dist (mouth 2) (mouth 4)
  let C := euclidean_dist (mouth 0) (mouth 3)
  if C = 0 then 0 else (A + B) / (2 * C)

/-! Concrete monitor values used by counterexamples and witnesses. -/

/-- A post-calibration monitor in the middle of a closure episode
whose recorded start instant is the clock value 0. -/
def cexMicro : DriverMonitor :=
  { blink_timestamps := []
    eyes_closed_prev := true
    eye_close_start := some 0
    face_lost_start := none
    state := .NORMAL
    state_change_time := 0
    ear_threshold := some (1/2)
    calibration_values := []
    calibration_start := 0
    last_alarm_time := 0 }

/-- A post-calibration monitor in the middle of a closure episode that
began at the nonzero instant 3. -/
def wMicro : DriverMonitor :=
  { blink_timestamps := [3]
    eyes_closed_prev := true
    eye_close_start := some 3
    face_lost_start := none
    state := .NORMAL
    state_change_time := 3
    ear_threshold := some (1/2)
    calibration_values := []
    calibration_start := 0
    last_alarm_time := 0 }

/-- A post-calibration monitor like wMicro, with the closure episode
begun at instant 0; used for the zero-instant edge case. -/
def wZero : DriverMonitor :=
  { blink_timestamps := []
    eyes_closed_prev := true
    eye_close_start := some 0
    face_lost_start := none
    state := .DROWSY
    state_change_time := 0
    ear_threshold := some (1/2)
    calibration_values := []
    calibration_start := 0
    last_alarm_time := 0 }

/-- A monitor with a face-loss episode begun at instant 1. -/
def wLost : DriverMonitor :=
  { blink_timestamps := []
    eyes_closed_prev := false
    eye_close_start := none
    face_lost_start := some 1
    state := .NORMAL
    state_change_time := 0
    ear_threshold := some (1/2)
    calibration_values := []
    calibration_start := 0
    last_alarm_time := 0 }

/-- A post-calibration monitor with two recorded blink instants, one
of them already stale at instant 63. -/
def wWindow : DriverMonitor :=
  { blink_timestamps := [1, 62]
    eyes_closed_prev := false
    eye_close_start := none
    face_lost_start := none
    state := .NORMAL
    state_change_time := 62
    ear_threshold := some 1
    calibration_values := []
    calibration_start := 0
    last_alarm_time := 0 }

/-- The update result produced from wWindow at instant 63 with open
eyes: the stale blink instant 1 is pruned, the hold timer refreshed. -/
def wWindowOut : DriverMonitor.UpdateOut :=
  { m := { wWindow with blink_timestamps := [62], state_change_time := 63 }
    blink_rate := 1
    microsleep := false
    requested := false
    fired := false }

/-- The update result produced from wWindow at instant 64 with open
eyes and a wide mouth: the DROWSY candidate is committed because the
state has been held since instant 62. -/
def wHystOut : DriverMonitor.UpdateOut :=
  { m := { wWindow with blink_timestamps := [62], state := .DROWSY, state_change_time := 64 }
    blink_rate := 1
    microsleep := false
    requested := false
    fired := false }

/-- The update result produced from wZero at instant 10 with closed
eyes: the zero start instant keeps the override off and the NORMAL
candidate is committed through the hysteresis path. -/
def wZeroOut : DriverMonitor.UpdateOut :=
  { m := { wZero with state := .NORMAL, state_change_time := 10 }
    blink_rate := 0
    microsleep := false
    requested := false
    fired := false }

/-- A degenerate contour: all six landmarks coincide. -/
def ptsDeg : Fin 6 → ℝ × ℝ := fun _ => (0, 0)

/-- A non-degenerate contour: landmark 3 sits at unit distance from
landmark 0, the rest coincide with landmark 0. -/
def ptsNondeg : Fin 6 → ℝ × ℝ := fun i => if i = 3 then (1, 0) else (0, 0)

namespace DriverMonitor

/-! Field-preservation lemmas for the embedded operations. -/

@[simp] theorem blinkPhase_state (m : DriverMonitor) (now ear θ : ℚ) :
    (blinkPhase m now ear θ).state = m.state := by
  unfold blinkPhase; split <;> [skip; rfl]; split <;> rfl

@[simp] theorem blinkPhase_state_change_time (m : DriverMonitor) (now ear θ : ℚ) :
    (blinkPhase m now ear θ).state_change_time = m.state_change_time := by
  unfold blinkPhase; split <;> [skip; rfl]; split <;> rfl

@[simp] theorem blinkPhase_face_lost_start (m : DriverMonitor) (now ear θ : ℚ) :
    (blinkPhase m now ear θ).face_lost_start = m.face_lost_start := by
  unfold blinkPhase; split <;> [skip; rfl]; split <;> rfl

@[simp] theorem blinkPhase_ear_threshold (m : DriverMonitor) (now ear θ : ℚ) :
    (blinkPhase m now ear θ).ear_threshold = m.ear_threshold := by
  unfold blinkPhase; split <;> [skip; rfl]; split <;> rfl

@[simp] theorem blinkPhase_last_alarm_time (m : DriverMonitor) (now ear θ : ℚ) :
    (blinkPhase m now ear θ).last_alarm_time = m.last_alarm_time := by
  unfold blinkPhase; split <;> [skip; rfl]; split <;> rfl

@[simp] theorem blinkPhase_calibration_values (m : DriverMonitor) (now ear θ : ℚ) :
    (blinkPhase m now ear θ).calibration_values = m.calibration_values := by
  unfold blinkPhase; split <;> [skip; rfl]; split <;> rfl

@[simp] theorem blinkPhase_calibration_start (m : DriverMonitor) (now ear θ : ℚ) :
    (blinkPhase m now ear θ).calibration_start = m.calibration_start := by
  unfold blinkPhase; split <;> [skip; rfl]; split <;> rfl

@[simp] theorem trigger_alarm_state (m : DriverMonitor) (now : ℚ) :
    (m.trigger_alarm now).1.state = m.state := by
  unfold trigger_alarm; split <;> rfl

@[simp] theorem trigger_alarm_blink_timestamps (m : DriverMonitor) (now : ℚ) :
    (m.trigger_alarm now).1.blink_timestamps = m.blink_timestamps := by
  unfold trigger_alarm; split <;> rfl

@[simp] theorem trigger_alarm_face_lost_start (m : DriverMonitor) (now : ℚ) :
    (m.trigger_alarm now).1.face_lost_start = m.face_lost_start := by
  unfold trigger_alarm; split <;> rfl

@[simp] theorem trigger_alarm_ear_threshold (m : DriverMonitor) (now : ℚ) :
    (m.trigger_alarm now).1.ear_threshold = m.ear_threshold := by
  unfold trigger_alarm; split <;> rfl

@[simp] theorem trigger_alarm_calibration_values (m : DriverMonitor) (now : ℚ) :
    (m.trigger_alarm now).1.calibration_values = m.calibration_values := by
  unfold trigger_alarm; split <;> rfl

@[simp] theorem trigger_alarm_calibration_start (m : DriverMonitor) (now : ℚ) :
    (m.trigger_alarm now).1.calibration_start = m.calibration_start := by
  unfold trigger_alarm; split <;> rfl

@[simp] theorem trigger_alarm_state_change_time (m : DriverMonitor) (now : ℚ) :
    (m.trigger_alarm now).1.state_change_time = m.state_change_time := by
  unfold trigger_alarm; split <;> rfl

@[simp] theorem trigger_alarm_eye_close_start (m : DriverMonitor) (now : ℚ) :
    (m.trigger_alarm now).1.eye_close_start = m.eye_close_start := by
  unfold trigger_alarm; split <;> rfl

@[simp] theorem trigger_alarm_eyes_closed_prev (m : DriverMonitor) (now : ℚ) :
    (m.trigger_alarm now).1.eyes_closed_prev = m.eyes_closed_prev := by
  unfold trigger_alarm; split <;> rfl

end DriverMonitor

/-- Firings produced by a run of trigger_alarm requests are each more
than the cooldown after the initial last-fired instant, and pairwise
more than the cooldown apart. -/
theorem runAlarms_spaced (m : DriverMonitor) (ts : List ℚ) :
    (∀ t ∈ (runAlarms m ts).2, t - m.last_alarm_time > ALARM_COOLDOWN) ∧
      List.Pairwise (fun a b => b - a > ALARM_COOLDOWN) (runAlarms m ts).2 := by
  induction ts generalizing m with
  | nil => simp [runAlarms]
  | cons t ts ih =>
      by_cases h : t - m.last_alarm_time > ALARM_COOLDOWN
      · have hrec := ih { m with last_alarm_time := t }
        simp only [runAlarms, DriverMonitor.trigger_alarm, if_pos h, List.singleton_append]
        refine ⟨?_, ?_⟩
        · intro f hf
          rcases List.mem_cons.mp hf with rfl | hf
          · exact h
          · have h1 := hrec.1 f hf
            simp only at h1
            have : (0:ℚ) < ALARM_COOLDOWN := by norm_num [ALARM_COOLDOWN]
            linarith
        · exact List.pairwise_cons.mpr ⟨fun f hf => by simpa using hrec.1 f hf, hrec.2⟩
      · simpa only [runAlarms, DriverMonitor.trigger_alarm, if_neg h, List.nil_append]
          using ih m

/-- C3.  Alarm cooldown: a request made while the elapsed time since
the last firing does not exceed ALARM_COOLDOWN is silently dropped
with the monitor unchanged; the instants at which the alarm actually
fires over any request sequence are pairwise more than the cooldown
apart; and two requests within the cooldown of each other, of which
the first fires, produce exactly one firing. -/
theorem alarm_cooldown_spec :
    (∀ (m : DriverMonitor) (now : ℚ), now - m.last_alarm_time ≤ ALARM_COOLDOWN →
        m.trigger_alarm now = (m, false)) ∧
    (∀ (m : DriverMonitor) (ts : List ℚ),
        List.Pairwise (fun a b => b - a > ALARM_COOLDOWN) (runAlarms m ts).2) ∧
    (∀ (m : DriverMonitor) (t1 t2 : ℚ),
        t1 - m.last_alarm_time > ALARM_COOLDOWN → t2 - t1 ≤ ALARM_COOLDOWN →
        (runAlarms m [t1, t2]).2 = [t1]) := by
  refine ⟨?_, fun m ts => (runAlarms_spaced m ts).2, ?_⟩
  · intro m now h
    simp [DriverMonitor.trigger_alarm, not_lt.mpr h]
  · intro m t1 t2 h1 h2
    simp [runAlarms, DriverMonitor.trigger_alarm, if_pos h1, not_lt.mpr h2]

/-- Witness for C3 at concrete inputs: a request at instant 1/2 with
the alarm last fired at 0 is dropped, and requests at instants 2 and
5/2 with the alarm last fired at 0 produce exactly the one firing at
instant 2. -/
theorem alarm_cooldown_spec_witness :
    DriverMonitor.trigger_alarm (DriverMonitor.init 0) (1/2) = (DriverMonitor.init 0, false) ∧
    (runAlarms (DriverMonitor.init 0) [2, 5/2]).2 = [2] :=
  ⟨alarm_cooldown_spec.1 (DriverMonitor.init 0) (1/2)
      (by norm_num [DriverMonitor.init, ALARM_COOLDOWN]),
    alarm_cooldown_spec.2.2 (DriverMonitor.init 0) 2 (5/2)
      (by norm_num [DriverMonitor.init, ALARM_COOLDOWN])
      (by norm_num [ALARM_COOLDOWN])⟩

/-- A successful update_state call leaves the face-loss episode, the
threshold and the calibration fields untouched. -/
theorem update_state_preserved (m : DriverMonitor) (now ear mar : ℚ) (out : DriverMonitor.UpdateOut)
    (hout : m.update_state now ear mar = some out) :
    out.m.face_lost_start = m.face_lost_start ∧
    out.m.ear_threshold = m.ear_threshold ∧
    out.m.calibration_values = m.calibration_values ∧
    out.m.calibration_start = m.calibration_start := by
  unfold DriverMonitor.update_state at hout
  cases hθ : m.ear_threshold with
  | none => rw [hθ] at hout; exact absurd hout (by simp)
  | some θ =>
      rw [hθ] at hout
      simp only at hout
      split at hout
      · cases hout
        refine ⟨?_, ?_, ?_, ?_⟩ <;> simp [hθ]
      · cases hout
        refine ⟨?_, ?_, ?_, ?_⟩ <;> split_ifs <;> simp [hθ]

/-- C6.  Face-loss handling: a lost frame with no active loss episode
starts one at the current instant and does not alarm; a lost frame
whose loss episode has lasted at least FACE_LOST_TIME (boundary
inclusive) forces DANGER and requests the alarm gate, whatever the
hold timer holds; a lost frame with a younger episode changes
nothing; and any frame with a detected face leaves the loss episode
cleared. -/
theorem face_loss_spec :
    (∀ (m : DriverMonitor) (now : ℚ), m.face_lost_start = none →
        m.handle_face_lost now = ({ m with face_lost_start := some now }, false, false)) ∧
    (∀ (m : DriverMonitor) (now t0 : ℚ), m.face_lost_start = some t0 →
        now - t0 ≥ FACE_LOST_TIME →
        (m.handle_face_lost now).1.state = .DANGER ∧ (m.handle_face_lost now).2.1 = true) ∧
    (∀ (m : DriverMonitor) (now t0 : ℚ), m.face_lost_start = some t0 →
        now - t0 < FACE_LOST_TIME →
        m.handle_face_lost now = (m, false, false)) ∧
    (∀ (m : DriverMonitor) (now ear mar : ℚ) (m1 : DriverMonitor),
        loopStep m (.face now ear mar) = some m1 → m1.face_lost_start = none) := by
  refine ⟨?_, ?_, ?_, ?_⟩
  · intro m now h
    simp [DriverMonitor.handle_face_lost, h]
  · intro m now t0 h hd
    simp [DriverMonitor.handle_face_lost, h, if_pos hd]
  · intro m now t0 h hd
    simp [DriverMonitor.handle_face_lost, h, if_neg (not_le.mpr hd)]
  · intro m now ear mar m1 h
    simp only [loopStep] at h
    split at h
    · cases h
      simp [DriverMonitor.calibrate]
      split <;> rfl
    · split at h
      · exact absurd h (by simp)
      · rename_i out hout
        cases h
        have := (update_state_preserved _ now ear mar out hout).1
        simpa using this

/-- Witness for C6 at concrete inputs: with a loss episode begun at
instant 1, a lost frame at instant 3 (absence of exactly
FACE_LOST_TIME) forces DANGER and requests the alarm; a fresh lost
frame at instant 1 merely starts the episode; and a face frame clears
the episode. -/
theorem blinkPhase_already_closed (m : DriverMonitor) (now ear θ : ℚ)
    (hprev : m.eyes_closed_prev = true) (hear : ear < θ) :
    DriverMonitor.blinkPhase m now ear θ = m := by
  simp [DriverMonitor.blinkPhase, hear, hprev]

/-- Frames that all stay below the threshold leave a monitor whose
latch is already set completely unchanged. -/
theorem foldBlink_closed_id (θ : ℚ) (ps : List (ℚ × ℚ)) :
    ∀ m : DriverMonitor, m.eyes_closed_prev = true → (∀ p ∈ ps, p.2 < θ) →
      foldBlink m θ ps = m := by
  induction ps with
  | nil => intro m _ _; rfl
  | cons p ps ih =>
      intro m hprev hall
      have h1 : DriverMonitor.blinkPhase m p.1 p.2 θ = m :=
        blinkPhase_already_closed m p.1 p.2 θ hprev (hall p (List.mem_cons_self p ps))
      simp only [foldBlink, h1]
      exact ih m hprev (fun q hq => hall q (List.mem_cons_of_mem p hq))

/-- C7.  Leading-edge blink counting: a frame at or above the
threshold clears the latch and the closure-episode start and appends
nothing; a continuous closure episode, entered with the latch clear,
appends exactly one blink timestamp, the instant of its onset frame,
leaving the latch set and the closure-episode start at that onset
instant, however many frames the closure spans. -/
theorem blink_leading_edge_spec :
    (∀ (m : DriverMonitor) (now ear θ : ℚ), θ ≤ ear →
        DriverMonitor.blinkPhase m now ear θ =
          { m with eyes_closed_prev := false, eye_close_start := none }) ∧
    (∀ (m : DriverMonitor) (θ t1 e1 : ℚ) (rest : List (ℚ × ℚ)),
        m.eyes_closed_prev = false → e1 < θ → (∀ p ∈ rest, p.2 < θ) →
        (foldBlink m θ ((t1, e1) :: rest)).blink_timestamps = m.blink_timestamps ++ [t1] ∧
        (foldBlink m θ ((t1, e1) :: rest)).eyes_closed_prev = true ∧
        (foldBlink m θ ((t1, e1) :: rest)).eye_close_start = some t1) := by
  constructor
  · intro m now ear θ h
    simp [DriverMonitor.blinkPhase, not_lt.mpr h]
  · intro m θ t1 e1 rest hprev he1 hrest
    have honset : DriverMonitor.blinkPhase m t1 e1 θ =
        { m with blink_timestamps := m.blink_timestamps ++ [t1],
                 eyes_closed_prev := true, eye_close_start := some t1 } := by
      simp [DriverMonitor.blinkPhase, he1, hprev]
    simp only [foldBlink, honset]
    rw [foldBlink_closed_id θ rest _ rfl hrest]
    exact ⟨rfl, rfl, rfl⟩

/-- Witness for C7 at concrete inputs: a three-frame closure at
instants 1, 2, 3 below threshold 1, begun with the latch clear,
appends exactly the one timestamp 1; and an open frame clears the
latch and episode. -/
theorem blink_leading_edge_spec_witness :
    ((foldBlink (DriverMonitor.init 0) 1 ((1, 0) :: [(2, 0), (3, 0)])).blink_timestamps =
        (DriverMonitor.init 0).blink_timestamps ++ [1] ∧
      (foldBlink (DriverMonitor.init 0) 1 ((1, 0) :: [(2, 0), (3, 0)])).eyes_closed_prev = true ∧
      (foldBlink (DriverMonitor.init 0) 1 ((1, 0) :: [(2, 0), (3, 0)])).eye_close_start = some 1) ∧
    DriverMonitor.blinkPhase wWindow 63 2 1 =
      { wWindow with eyes_closed_prev := false, eye_close_start := none } :=
  ⟨blink_leading_edge_spec.2 (DriverMonitor.init 0) 1 1 0 [(2, 0), (3, 0)] rfl (by norm_num)
      (by intro p hp; simp only [List.mem_cons, List.not_mem_nil, or_false] at hp
          rcases hp with rfl | rfl <;> norm_num),
    blink_leading_edge_spec.1 wWindow 63 2 1 (by norm_num)⟩

/-- The blink block either leaves the timestamp list alone or appends
the current instant on the right. -/
theorem blinkPhase_blink_timestamps (m : DriverMonitor) (now ear θ : ℚ) :
    (DriverMonitor.blinkPhase m now ear θ).blink_timestamps = m.blink_timestamps ∨
    (DriverMonitor.blinkPhase m now ear θ).blink_timestamps = m.blink_timestamps ++ [now] := by
  unfold DriverMonitor.blinkPhase
  split
  · split
    · exact Or.inl rfl
    · exact Or.inr rfl
  · exact Or.inl rfl

/-- On a chronologically ordered list, the front-pruning while loop
discards exactly the timestamps older than the window. -/
theorem DriverMonitor.pruneBlinks_eq_filter (now : ℚ) (ts : List ℚ)
    (h : List.Pairwise (· ≤ ·) ts) :
    DriverMonitor.pruneBlinks now ts = ts.filter (fun t => decide (now - t ≤ BLINK_WINDOW)) := by
  induction ts with
  | nil => rfl
  | cons a l ih =>
      rcases List.pairwise_cons.mp h with ⟨ha, hl⟩
      by_cases hc : now - a > BLINK_WINDOW
      · have h1 : DriverMonitor.pruneBlinks now (a :: l) = DriverMonitor.pruneBlinks now l := by
          simp [DriverMonitor.pruneBlinks, List.dropWhile_cons, hc]
        have hfa : (decide (now - a ≤ BLINK_WINDOW)) = false := by
          simp only [decide_eq_false_iff_not, not_le]
          exact hc
        have h2 : (a :: l).filter (fun t => decide (now - t ≤ BLINK_WINDOW)) =
            l.filter (fun t => decide (now - t ≤ BLINK_WINDOW)) :=
          List.filter_cons_of_neg (p := fun t => decide (now - t ≤ BLINK_WINDOW))
            (by show ¬ decide (now - a ≤ BLINK_WINDOW) = true
                rw [hfa]; exact Bool.false_ne_true)
        rw [h1, h2, ih hl]
      · have hle : now - a ≤ BLINK_WINDOW := not_lt.mp hc
        have h1 : DriverMonitor.pruneBlinks now (a :: l) = a :: l := by
          simp [DriverMonitor.pruneBlinks, List.dropWhile_cons, not_lt.mp hc, hc]
        have h2 : l.filter (fun t => decide (now - t ≤ BLINK_WINDOW)) = l := by
          apply List.filter_eq_self.mpr
          intro b hb
          have : a ≤ b := ha b hb
          exact decide_eq_true (by linarith)
        rw [h1, List.filter_cons_of_pos (p := fun t => decide (now - t ≤ BLINK_WINDOW))
          (show decide (now - a ≤ BLINK_WINDOW) = true from decide_eq_true hle), h2]

/-- A successful update_state call leaves the blink-timestamp list of
the result equal to the pruned post-blink list, and returns its
length as the blink rate. -/
theorem update_state_blinks (m : DriverMonitor) (now ear mar θ : ℚ)
    (out : DriverMonitor.UpdateOut)
    (hθ : m.ear_threshold = some θ) (hout : m.update_state now ear mar = some out) :
    out.m.blink_timestamps =
      DriverMonitor.pruneBlinks now (DriverMonitor.blinkPhase m now ear θ).blink_timestamps ∧
    out.blink_rate = out.m.blink_timestamps.length := by
  unfold DriverMonitor.update_state at hout
  rw [hθ] at hout
  simp only at hout
  split at hout
  · cases hout; simp
  · cases hout
    constructor <;> split_ifs <;> simp

/-- C8.  Blink-rate window: on an update over a chronologically
ordered, past-dated blink list, the timestamps older than
BLINK_WINDOW relative to the current instant are exactly the ones
discarded, every timestamp that remains lies within the window, and
the returned blink rate is the length of the pruned list. -/
theorem blink_window_spec (m : DriverMonitor) (now ear mar θ : ℚ)
    (out : DriverMonitor.UpdateOut)
    (hθ : m.ear_threshold = some θ)
    (hsorted : List.Pairwise (· ≤ ·) m.blink_timestamps)
    (hpast : ∀ t ∈ m.blink_timestamps, t ≤ now)
    (hout : m.update_state now ear mar = some out) :
    out.blink_rate = out.m.blink_timestamps.length ∧
    out.m.blink_timestamps =
      (DriverMonitor.blinkPhase m now ear θ).blink_timestamps.filter
        (fun t => decide (now - t ≤ BLINK_WINDOW)) ∧
    ∀ t ∈ out.m.blink_timestamps, now - t ≤ BLINK_WINDOW := by
  have hsorted1 : List.Pairwise (· ≤ ·) (DriverMonitor.blinkPhase m now ear θ).blink_timestamps := by
    rcases blinkPhase_blink_timestamps m now ear θ with h | h <;> rw [h]
    · exact hsorted
    · exact List.pairwise_append.mpr
        ⟨hsorted, List.pairwise_singleton _ _, fun a ha b hb => by
          simp only [List.mem_singleton] at hb
          exact hb ▸ hpast a ha⟩
  obtain ⟨hlist, hrate⟩ := update_state_blinks m now ear mar θ out hθ hout
  have hfilter := DriverMonitor.pruneBlinks_eq_filter now _ hsorted1
  refine ⟨hrate, hlist.trans hfilter, ?_⟩
  intro t ht
  rw [hlist, hfilter] at ht
  have := (List.mem_filter.mp ht).2
  exact of_decide_eq_true this

/-- Witness for C8 at concrete inputs: updating wWindow at instant 63
prunes the stale blink instant 1, keeps the instant 62, and reports
blink rate 1. -/
theorem blink_window_spec_witness :
    wWindowOut.blink_rate = wWindowOut.m.blink_timestamps.length ∧
    wWindowOut.m.blink_timestamps =
      (DriverMonitor.blinkPhase wWindow 63 2 1).blink_timestamps.filter
        (fun t => decide ((63:ℚ) - t ≤ BLINK_WINDOW)) ∧
    ∀ t ∈ wWindowOut.m.blink_timestamps, (63:ℚ) - t ≤ BLINK_WINDOW :=
  blink_window_spec wWindow 63 2 0 1 wWindowOut rfl
    (by norm_num [wWindow, List.pairwise_cons])
    (by intro t ht
        simp only [wWindow, List.mem_cons, List.not_mem_nil, or_false] at ht
        rcases ht with rfl | rfl <;> norm_num)
    (by simp [DriverMonitor.update_state, DriverMonitor.blinkPhase, DriverMonitor.pruneBlinks,
          DriverMonitor.microsleepCond, wWindow, wWindowOut, BLINK_WINDOW,
          BLINK_RATE_THRESHOLD, MAR_THRESHOLD, List.dropWhile_cons]
        norm_num)

theorem handle_face_lost_ear_threshold (m : DriverMonitor) (now : ℚ) :
    (m.handle_face_lost now).1.ear_threshold = m.ear_threshold := by
  rcases hfs : m.face_lost_start with _ | t0 <;>
    simp only [DriverMonitor.handle_face_lost, hfs] <;>
    try (split <;> simp)

theorem handle_face_lost_not_calibrating (m : DriverMonitor) (now : ℚ)
    (hs : m.state ≠ .CALIBRATING) :
    (m.handle_face_lost now).1.state ≠ .CALIBRATING := by
  rcases hfs : m.face_lost_start with _ | t0 <;>
    simp only [DriverMonitor.handle_face_lost, hfs]
  · exact hs
  · split
    · simp
    · exact hs

theorem update_state_not_calibrating (m : DriverMonitor) (now ear mar : ℚ)
    (out : DriverMonitor.UpdateOut) (hout : m.update_state now ear mar = some out)
    (hs : m.state ≠ .CALIBRATING) : out.m.state ≠ .CALIBRATING := by
  unfold DriverMonitor.update_state at hout
  cases hθ : m.ear_threshold with
  | none => rw [hθ] at hout; exact absurd hout (by simp)
  | some θ =>
      rw [hθ] at hout
      simp only at hout
      split at hout
      · cases hout; simp
      · cases hout
        split_ifs <;> simp_all

theorem calibrate_early (m : DriverMonitor) (now ear : ℚ)
    (h : now - m.calibration_start < CALIBRATION_TIME) :
    m.calibrate now ear = { m with calibration_values := m.calibration_values ++ [ear] } := by
  simp [DriverMonitor.calibrate, not_le.mpr h]

theorem calibrate_done (m : DriverMonitor) (now ear : ℚ)
    (h : now - m.calibration_start ≥ CALIBRATION_TIME) :
    m.calibrate now ear =
      { m with calibration_values := m.calibration_values ++ [ear]
               ear_threshold := some (7/10 * ((m.calibration_values ++ [ear]).sum /
                   (((m.calibration_values ++ [ear]).length : ℕ) : ℚ)))
               state := .NORMAL
               state_change_time := now } := by
  simp [DriverMonitor.calibrate, h]

theorem foldCalib_early (ps : List (ℚ × ℚ)) :
    ∀ m : DriverMonitor, (∀ p ∈ ps, p.1 - m.calibration_start < CALIBRATION_TIME) →
      foldCalib m ps =
        { m with calibration_values := m.calibration_values ++ ps.map Prod.snd } := by
  induction ps with
  | nil => intro m _; simp [foldCalib]
  | cons p ps ih =>
      intro m hall
      have h1 := calibrate_early m p.1 p.2 (hall p (List.mem_cons_self p ps))
      have h2 := ih { m with calibration_values := m.calibration_values ++ [p.2] }
        (fun q hq => hall q (List.mem_cons_of_mem p hq))
      simp only [foldCalib, h1, h2, List.append_assoc, List.singleton_append, List.map_cons]

theorem foldCalib_append (ps qs : List (ℚ × ℚ)) :
    ∀ m : DriverMonitor, foldCalib m (ps ++ qs) = foldCalib (foldCalib m ps) qs := by
  induction ps with
  | nil => intro m; rfl
  | cons p ps ih => intro m; simp only [List.cons_append, List.append_eq, foldCalib, ih]

/-- C4.  Calibration completion: frames fed strictly inside the
5-second window only accumulate samples, leaving the threshold and
state untouched; the first frame whose elapsed time since the
calibration start instant reaches CALIBRATION_TIME sets the threshold
to exactly 0.7 times the arithmetic mean of all collected samples,
moves the state to NORMAL and resets the hold timer to that frame's
instant; and once the monitor has left CALIBRATING, no loop step ever
changes the threshold or re-enters CALIBRATING, so the threshold is
never recomputed. -/
theorem calibration_spec :
    (∀ (m : DriverMonitor) (ps : List (ℚ × ℚ)),
        (∀ p ∈ ps, p.1 - m.calibration_start < CALIBRATION_TIME) →
        foldCalib m ps =
          { m with calibration_values := m.calibration_values ++ ps.map Prod.snd }) ∧
    (∀ (m : DriverMonitor) (ps : List (ℚ × ℚ)) (t e : ℚ),
        m.calibration_values = [] →
        (∀ p ∈ ps, p.1 - m.calibration_start < CALIBRATION_TIME) →
        t - m.calibration_start ≥ CALIBRATION_TIME →
        (foldCalib m (ps ++ [(t, e)])).ear_threshold =
          some (7/10 * ((ps.map Prod.snd ++ [e]).sum /
            (((ps.map Prod.snd ++ [e]).length : ℕ) : ℚ))) ∧
        (foldCalib m (ps ++ [(t, e)])).state = .NORMAL ∧
        (foldCalib m (ps ++ [(t, e)])).state_change_time = t ∧
        (foldCalib m (ps ++ [(t, e)])).calibration_values = ps.map Prod.snd ++ [e]) ∧
    (∀ (m : DriverMonitor) (f : Frame) (m1 : DriverMonitor),
        loopStep m f = some m1 → m.state ≠ .CALIBRATING →
        m1.ear_threshold = m.ear_threshold ∧ m1.state ≠ .CALIBRATING) := by
  refine ⟨fun m ps h => foldCalib_early ps m h, ?_, ?_⟩
  · intro m ps t e hempty hps ht
    rw [foldCalib_append, foldCalib_early ps m hps]
    set m1 : DriverMonitor :=
      { m with calibration_values := m.calibration_values ++ ps.map Prod.snd } with hm1
    have hstart : m1.calibration_start = m.calibration_start := rfl
    have hdone := calibrate_done m1 t e (by rw [hstart]; exact ht)
    have hvals : m1.calibration_values = ps.map Prod.snd := by
      rw [hm1]; simp [hempty]
    simp [foldCalib, hdone, hempty]
  · intro m f m1 h hs
    cases f with
    | lost now =>
        simp only [loopStep, Option.some.injEq] at h
        subst h
        exact ⟨handle_face_lost_ear_threshold m now,
          handle_face_lost_not_calibrating m now hs⟩
    | face now ear mar =>
        simp only [loopStep] at h
        split at h
        · rename_i hcal
          exact absurd (by simpa using hcal) hs
        · split at h
          · exact absurd h (by simp)
          · rename_i out hout
            cases h
            have hpres := update_state_preserved _ now ear mar out hout
            have hnc := update_state_not_calibrating _ now ear mar out hout
              (by simpa using hs)
            exact ⟨hpres.2.1, hnc⟩

/-- Witness for C4 at concrete inputs: feeding samples 3/10 at
instants 1 and 2 (inside the window) and then at instant 5 to a fresh
monitor started at 0 sets the threshold to 0.7 times the mean of the
three samples, moves to NORMAL with the hold timer at 5; and a loop
step from a calibrated monitor keeps the threshold and stays out of
CALIBRATING. -/
theorem calibration_spec_witness :
    ((foldCalib (DriverMonitor.init 0) ([(1, 3/10), (2, 3/10)] ++ [(5, 3/10)])).ear_threshold =
        some (7/10 * ((([(1, 3/10), (2, 3/10)] : List (ℚ × ℚ)).map Prod.snd ++ [3/10]).sum /
          (((([(1, 3/10), (2, 3/10)] : List (ℚ × ℚ)).map Prod.snd ++ [(3/10 : ℚ)]).length : ℕ) : ℚ))) ∧
      (foldCalib (DriverMonitor.init 0) ([(1, 3/10), (2, 3/10)] ++ [(5, 3/10)])).state = .NORMAL ∧
      (foldCalib (DriverMonitor.init 0) ([(1, 3/10), (2, 3/10)] ++ [(5, 3/10)])).state_change_time = 5 ∧
      (foldCalib (DriverMonitor.init 0) ([(1, 3/10), (2, 3/10)] ++ [(5, 3/10)])).calibration_values =
        ([(1, 3/10), (2, 3/10)] : List (ℚ × ℚ)).map Prod.snd ++ [3/10]) ∧
    (wLost.ear_threshold = wLost.ear_threshold ∧ wLost.state ≠ .CALIBRATING) :=
  ⟨calibration_spec.2.1 (DriverMonitor.init 0) [(1, 3/10), (2, 3/10)] 5 (3/10) rfl
      (by intro p hp
          simp only [List.mem_cons, List.not_mem_nil, or_false] at hp
          rcases hp with rfl | rfl <;> norm_num [DriverMonitor.init, CALIBRATION_TIME])
      (by norm_num [DriverMonitor.init, CALIBRATION_TIME]),
    calibration_spec.2.2 wLost (.lost 2) wLost
      (by simp [loopStep, DriverMonitor.handle_face_lost, wLost, FACE_LOST_TIME]; norm_num)
      (by simp [wLost])⟩

theorem face_loss_spec_witness :
    ((wLost.handle_face_lost 3).1.state = .DANGER ∧ (wLost.handle_face_lost 3).2.1 = true) ∧
    DriverMonitor.handle_face_lost { wLost with face_lost_start := none } 1 =
      ({ wLost with face_lost_start := some 1 }, false, false) ∧
    ∀ m1, loopStep wLost (.face 3 1 0) = some m1 → m1.face_lost_start = none :=
  ⟨face_loss_spec.2.1 wLost 3 1 (by rfl) (by norm_num [FACE_LOST_TIME]),
    face_loss_spec.1 { wLost with face_lost_start := none } 1 rfl,
    fun m1 h => face_loss_spec.2.2.2 wLost 3 1 0 m1 h⟩

/-- C5.  Hysteresis hold, per calibrated frame not taken by the
microsleep override, writing cand for the candidate state computed
from the returned blink rate and the mouth ratio: a committed state
change requires the hold-timer reference instant to be at least
STATE_HOLD_TIME old and moves the state to cand while resetting the
reference instant; a candidate equal to the current state leaves the
state alone and refreshes the reference instant; and a differing
candidate seen while the reference instant is at most STATE_HOLD_TIME
old commits nothing and leaves the reference instant alone, so a
candidate that reverts before the hold elapses is never committed. -/
theorem hysteresis_spec (m : DriverMonitor) (now ear mar θ : ℚ)
    (out : DriverMonitor.UpdateOut)
    (hθ : m.ear_threshold = some θ)
    (hout : m.update_state now ear mar = some out)
    (hmicro : out.microsleep = false) :
    (out.m.state ≠ m.state →
        now - m.state_change_time ≥ STATE_HOLD_TIME ∧
        out.m.state = (if out.blink_rate > BLINK_RATE_THRESHOLD ∨ mar > MAR_THRESHOLD
          then MState.DROWSY else MState.NORMAL) ∧
        out.m.state_change_time = now) ∧
    ((if out.blink_rate > BLINK_RATE_THRESHOLD ∨ mar > MAR_THRESHOLD
        then MState.DROWSY else MState.NORMAL) = m.state →
        out.m.state = m.state ∧ out.m.state_change_time = now) ∧
    ((if out.blink_rate > BLINK_RATE_THRESHOLD ∨ mar > MAR_THRESHOLD
        then MState.DROWSY else MState.NORMAL) ≠ m.state →
        now - m.state_change_time ≤ STATE_HOLD_TIME →
        out.m.state = m.state ∧ out.m.state_change_time = m.state_change_time) := by
  unfold DriverMonitor.update_state at hout
  rw [hθ] at hout
  simp only at hout
  split at hout
  · cases hout; simp at hmicro
  · cases hout
    by_cases hc : (if (DriverMonitor.pruneBlinks now
          (DriverMonitor.blinkPhase m now ear θ).blink_timestamps).length >
          BLINK_RATE_THRESHOLD ∨ mar > MAR_THRESHOLD
        then MState.DROWSY else MState.NORMAL) = m.state
    · refine ⟨?_, ?_, ?_⟩
      · intro hne
        exact absurd (by simp [hc, Ne, hc]) hne
      · intro _
        constructor <;> simp [hc]
      · intro hne
        exact absurd (by simpa using hc) hne
    · by_cases hh : now - m.state_change_time > STATE_HOLD_TIME
      · refine ⟨?_, ?_, ?_⟩
        · intro _
          refine ⟨le_of_lt hh, ?_, ?_⟩ <;> simp [hc, hh]
        · intro h
          exact absurd h (by simpa using hc)
        · intro _ hle
          exact absurd hh (not_lt.mpr hle)
      · refine ⟨?_, ?_, ?_⟩
        · intro hne
          exact absurd (by simp [hc, hh]) hne
        · intro h
          exact absurd h (by simpa using hc)
        · intro _ _
          constructor <;> simp [hc, hh]

/-- Witness for C5 at concrete inputs: updating wWindow at instant 64
with mouth ratio 1 commits the DROWSY candidate, the two-second-old
reference instant satisfying the hold, and resets the reference
instant to 64. -/
theorem hysteresis_spec_witness :
    (wHystOut.m.state ≠ wWindow.state →
        (64:ℚ) - wWindow.state_change_time ≥ STATE_HOLD_TIME ∧
        wHystOut.m.state = (if wHystOut.blink_rate > BLINK_RATE_THRESHOLD ∨ (1:ℚ) > MAR_THRESHOLD
          then MState.DROWSY else MState.NORMAL) ∧
        wHystOut.m.state_change_time = 64) ∧
    ((if wHystOut.blink_rate > BLINK_RATE_THRESHOLD ∨ (1:ℚ) > MAR_THRESHOLD
        then MState.DROWSY else MState.NORMAL) = wWindow.state →
        wHystOut.m.state = wWindow.state ∧ wHystOut.m.state_change_time = 64) ∧
    ((if wHystOut.blink_rate > BLINK_RATE_THRESHOLD ∨ (1:ℚ) > MAR_THRESHOLD
        then MState.DROWSY else MState.NORMAL) ≠ wWindow.state →
        (64:ℚ) - wWindow.state_change_time ≤ STATE_HOLD_TIME →
        wHystOut.m.state = wWindow.state ∧
        wHystOut.m.state_change_time = wWindow.state_change_time) :=
  hysteresis_spec wWindow 64 2 1 1 wHystOut rfl
    (by simp [DriverMonitor.update_state, DriverMonitor.blinkPhase,
          DriverMonitor.pruneBlinks, DriverMonitor.microsleepCond, wWindow, wHystOut,
          BLINK_WINDOW, BLINK_RATE_THRESHOLD, MAR_THRESHOLD, STATE_HOLD_TIME,
          List.dropWhile_cons]
        norm_num)
    rfl

/-- C1, counterexample to the claim as stated: cexMicro is a
calibrated monitor with an active closure episode (latch set, start
instant recorded as 0) whose duration at instant 5 is 5 seconds, well
over MICROSLEEP_TIME, and whose eye ratio 0 stays below the threshold
1/2 on the frame; yet update_state takes no early return, requests no
alarm, and leaves the state NORMAL instead of DANGER, because the
Python truthiness test on the start instant 0.0 is false. -/
theorem microsleep_override_cex :
    cexMicro.ear_threshold = some (1/2) ∧
    cexMicro.eyes_closed_prev = true ∧
    cexMicro.eye_close_start = some 0 ∧
    (5:ℚ) - 0 ≥ MICROSLEEP_TIME ∧
    (cexMicro.update_state 5 0 0).map (fun o => (o.m.state, o.microsleep, o.requested)) =
      some (MState.NORMAL, false, false) := by
  refine ⟨rfl, rfl, rfl, by norm_num [MICROSLEEP_TIME], ?_⟩
  simp [DriverMonitor.update_state, DriverMonitor.blinkPhase, DriverMonitor.pruneBlinks,
    DriverMonitor.microsleepCond, cexMicro, BLINK_RATE_THRESHOLD, MAR_THRESHOLD]
  norm_num

/-- C1, amended.  Microsleep immediate override: on a calibrated
frame whose ongoing closure episode has a nonzero recorded start
instant, whose eye ratio stays below the threshold, and whose episode
duration has reached MICROSLEEP_TIME, update_state sets the state to
DANGER, requests the alarm gate and returns on that exact frame
through the early-return path, whatever the hold timer holds. -/
theorem microsleep_override_spec (m : DriverMonitor) (now ear mar θ t : ℚ)
    (hθ : m.ear_threshold = some θ)
    (hstart : m.eye_close_start = some t)
    (ht : t ≠ 0)
    (hprev : m.eyes_closed_prev = true)
    (hear : ear < θ)
    (hdur : now - t ≥ MICROSLEEP_TIME) :
    (m.update_state now ear mar).map (fun o => (o.m.state, o.microsleep, o.requested)) =
      some (MState.DANGER, true, true) := by
  have hbp : DriverMonitor.blinkPhase m now ear θ = m :=
    blinkPhase_already_closed m now ear θ hprev hear
  have hcond : DriverMonitor.microsleepCond m.eye_close_start now = true := by
    rw [hstart]
    simp only [DriverMonitor.microsleepCond, Bool.and_eq_true, decide_eq_true_eq]
    exact ⟨ht, hdur⟩
  unfold DriverMonitor.update_state
  rw [hθ]
  simp only [hbp, hcond, if_pos]
  simp

/-- Witness for the amended C1 at concrete inputs: wMicro has an
ongoing closure episode begun at instant 3; at instant 6, with eye
ratio 0 below the threshold 1/2, update_state forces DANGER, requests
the alarm and takes the early return. -/
theorem microsleep_override_spec_witness :
    (wMicro.update_state 6 0 0).map (fun o => (o.m.state, o.microsleep, o.requested)) =
      some (MState.DANGER, true, true) :=
  microsleep_override_spec wMicro 6 0 0 (1/2) 3 rfl rfl (by norm_num) rfl
    (by norm_num) (by norm_num [MICROSLEEP_TIME])

/-- C10.  Zero-instant edge case: on any calibrated frame of a
monitor whose recorded closure-episode start instant is the clock
value 0, the microsleep early return is never taken, however large
the current instant is, and the update can only report DANGER if the
state was already DANGER before the frame: the truthiness test of
line 109 of src/camera.py is false at 0.0, so the microsleep path to
DANGER is unreachable from such states. -/
theorem zero_start_no_override (m : DriverMonitor) (now ear mar θ : ℚ)
    (out : DriverMonitor.UpdateOut)
    (hθ : m.ear_threshold = some θ)
    (hstart : m.eye_close_start = some 0)
    (hout : m.update_state now ear mar = some out) :
    out.microsleep = false ∧ (out.m.state = .DANGER → m.state = .DANGER) := by
  have hcond : ∀ s : Option ℚ, s = some 0 ∨ s = some now ∨ s = none →
      DriverMonitor.microsleepCond s now = true → (now ≠ 0 ∧ now - now ≥ MICROSLEEP_TIME) := by
    intro s hs hc
    rcases hs with rfl | rfl | rfl
    · simp [DriverMonitor.microsleepCond] at hc
    · simpa [DriverMonitor.microsleepCond, decide_eq_true_eq] using hc
    · simp [DriverMonitor.microsleepCond] at hc
  unfold DriverMonitor.update_state at hout
  rw [hθ] at hout
  simp only at hout
  split at hout
  · rename_i hc
    have hshape : (DriverMonitor.blinkPhase m now ear θ).eye_close_start = some 0 ∨
        (DriverMonitor.blinkPhase m now ear θ).eye_close_start = some now ∨
        (DriverMonitor.blinkPhase m now ear θ).eye_close_start = none := by
      unfold DriverMonitor.blinkPhase
      split
      · split
        · exact Or.inl hstart
        · exact Or.inr (Or.inl rfl)
      · exact Or.inr (Or.inr rfl)
    have ⟨_, habs⟩ := hcond _ hshape hc
    have : ¬ ((0:ℚ) ≥ MICROSLEEP_TIME) := by norm_num [MICROSLEEP_TIME]
    simp at habs
    exact absurd habs (by norm_num [MICROSLEEP_TIME])
  · cases hout
    refine ⟨rfl, ?_⟩
    split_ifs <;> simp_all

/-- Witness for C10 at concrete inputs: wZero holds a closure episode
begun at the clock value 0; at instant 10, with eyes still closed,
the override does not fire and the state falls back to the hysteresis
result NORMAL rather than DANGER. -/
theorem zero_start_no_override_witness :
    wZeroOut.microsleep = false ∧ (wZeroOut.m.state = .DANGER → wZero.state = .DANGER) :=
  zero_start_no_override wZero 10 0 0 (1/2) wZeroOut rfl rfl
    (by simp [DriverMonitor.update_state, DriverMonitor.blinkPhase,
          DriverMonitor.pruneBlinks, DriverMonitor.microsleepCond, wZero, wZeroOut,
          BLINK_RATE_THRESHOLD, MAR_THRESHOLD, STATE_HOLD_TIME]
        norm_num)

/-- C2, exhibiting the code bug: from a fresh monitor started at
instant 0, losing the face at instants 0 and 2 forces the state to
DANGER through handle_face_lost while the threshold is still unset,
so the monitor is out of CALIBRATING with no threshold; the next face
frame then reaches the comparison of the eye ratio against the unset
threshold in update_state, the TypeError the claim requires the code
to guard against. -/
theorem precalibration_guard_code_bug :
    (runFrames (DriverMonitor.init 0) [.lost 0, .lost 2]).map
        (fun m => (m.state, m.ear_threshold)) = some (.DANGER, none) ∧
    runFrames (DriverMonitor.init 0) [.lost 0, .lost 2, .face (5/2) (3/10) (3/10)] = none := by
  constructor <;>
    · simp [runFrames, loopStep, DriverMonitor.init, DriverMonitor.handle_face_lost,
        DriverMonitor.trigger_alarm, DriverMonitor.update_state, FACE_LOST_TIME,
        ALARM_COOLDOWN]
      try norm_num

/-- C9.  Aspect-ratio totality and formula: for every six-point
contour, the eye and mouth aspect-ratio functions return the sum of
the two vertical Euclidean distances over twice the horizontal one
whenever the horizontal distance is nonzero, return exactly 0 in the
degenerate zero-horizontal case instead of failing, and are always
non-negative. -/
theorem aspect_ratio_spec (pts : Fin 6 → ℝ × ℝ) :
    (euclidean_dist (pts 0) (pts 3) = 0 →
        eye_aspect_ratio pts = 0 ∧ mouth_aspect_ratio pts = 0) ∧
    (euclidean_dist (pts 0) (pts 3) ≠ 0 →
        eye_aspect_ratio pts =
          (euclidean_dist (pts 1) (pts 5) + euclidean_dist (pts 2) (pts 4)) /
            (2 * euclidean_dist (pts 0) (pts 3)) ∧
        mouth_aspect_ratio pts =
          (euclidean_dist (pts 1) (pts 5) + euclidean_dist (pts 2) (pts 4)) /
            (2 * euclidean_dist (pts 0) (pts 3))) ∧
    0 ≤ eye_aspect_ratio pts ∧ 0 ≤ mouth_aspect_ratio pts := by
  have hd : ∀ p q : ℝ × ℝ, 0 ≤ euclidean_dist p q := fun p q => Real.sqrt_nonneg _
  have hnn : 0 ≤ (euclidean_dist (pts 1) (pts 5) + euclidean_dist (pts 2) (pts 4)) /
      (2 * euclidean_dist (pts 0) (pts 3)) :=
    div_nonneg (add_nonneg (hd _ _) (hd _ _))
      (mul_nonneg (by norm_num) (hd _ _))
  refine ⟨?_, ?_, ?_, ?_⟩
  · intro h
    constructor <;> simp [eye_aspect_ratio, mouth_aspect_ratio, h]
  · intro h
    constructor <;> simp [eye_aspect_ratio, mouth_aspect_ratio, h]
  · simp only [eye_aspect_ratio]
    split_ifs
    · exact le_refl 0
    · exact hnn
  · simp only [mouth_aspect_ratio]
    split_ifs
    · exact le_refl 0
    · exact hnn

/-- Witness for C9 at concrete contours: the fully coincident contour
is degenerate and yields ratio exactly 0; the contour with landmark 3
at unit distance is non-degenerate and yields the closed-form
quotient. -/
theorem aspect_ratio_spec_witness :
    (eye_aspect_ratio ptsDeg = 0 ∧ mouth_aspect_ratio ptsDeg = 0) ∧
    eye_aspect_ratio ptsNondeg =
      (euclidean_dist (ptsNondeg 1) (ptsNondeg 5) + euclidean_dist (ptsNondeg 2) (ptsNondeg 4)) /
        (2 * euclidean_dist (ptsNondeg 0) (ptsNondeg 3)) :=
  ⟨(aspect_ratio_spec ptsDeg).1 (by simp [euclidean_dist, ptsDeg]),
    ((aspect_ratio_spec ptsNondeg).2.1 (by
      simp [euclidean_dist, ptsNondeg]
      try norm_num)).1⟩

end Camera
